import Mathlib

/-!
Shallow embedding of the demosmith-mcp core: the session/step recording
model (src/session/manager.ts), evidence capture (src/collector/collector.ts),
the viewport (tab) registry (src/session/manager.ts), the narration timing
engine (src/generator/narration.ts, two revisions), the subtitle encoders
(src/generator/subtitle.ts) and the deliverable packager
(src/generator/packager.ts).

Conventions of the embedding:
* TypeScript numbers that hold millisecond counts or ids are `Nat`
  (they are produced by `Date.now()` differences and counters); narration
  segment offsets are `Int` because the JS arithmetic producing them can
  go negative in general.
* `undefined`-able fields become `Option`.
* Thrown exceptions become `Except String`; a stateful operation that can
  throw returns the mutated state paired with `Except String result`,
  where the returned state reflects exactly the mutations performed
  before the throw (TS mutates the shared session in place).
* The wall clock is passed explicitly (`startTime`, `endTime`).
* Strings in the source contain the ASCII apostrophe; it is spliced in
  via `apostr` below.
-/

/-- The ASCII apostrophe (code 39), as it occurs in the narration texts. -/
def apostr : String := Char.toString (Char.ofNat 39)

/-- JS truthiness of an optional string: `undefined` and `""` are falsy. -/
def truthy : Option String → Bool
  | none => false
  | some s => s != ""

/- `String.split(/\s+/)` as JavaScript evaluates it: the string is cut at
maximal whitespace runs; a leading or trailing run contributes an empty
element, and the split of `""` is `[""]`. -/
mutual

def splitWsAux : List Char → String → List String
  | [], cur => [cur]
  | c :: rest, cur =>
    if c.isWhitespace then cur :: skipWsRun rest
    else splitWsAux rest (cur.push c)
termination_by cs _ => cs.length

def skipWsRun : List Char → List String
  | [] => [""]
  | c :: rest =>
    if c.isWhitespace then skipWsRun rest
    else splitWsAux rest (Char.toString c)
termination_by cs => cs.length

end

/-- JavaScript `s.split(/\s+/)`. -/
def jsSplitWs (s : String) : List String :=
  splitWsAux s.toList ""

/-- The zero-padding `String(n).padStart(3, "0")` of the screenshot file names. -/
def pad3 (n : Nat) : String :=
  let s := toString n
  if s.length ≥ 3 then s
  else String.mk (List.replicate (3 - s.length) (Char.ofNat 48)) ++ s

/-! ## Data model (src/types.ts) -/

/-- The per-kind detail bag of a step (`DemoStep['details']`), restricted to
the fields the narration derivation and the action tools under scrutiny
read or write (`url`, `value`, `ref`, `direction`, `amount`). -/
structure StepDetails where
  ref : Option String := none
  value : Option String := none
  url : Option String := none
  direction : Option String := none
  amount : Option Int := none
  deriving Repr, DecidableEq

/-- The evidence record attached to a step. -/
structure StepEvidence where
  screenshotPath : Option String := none
  deriving Repr, DecidableEq

/-- One recorded action (`DemoStep`). `timestamp` is the wall-clock
millisecond instant, `duration` the measured elapsed milliseconds,
`videoStartMs`/`videoEndMs` the optional video-timeline offsets. -/
structure DemoStep where
  id : Nat
  action : String
  description : String
  timestamp : Nat
  duration : Nat
  videoStartMs : Option Nat := none
  videoEndMs : Option Nat := none
  details : StepDetails := {}
  evidence : StepEvidence := {}
  success : Bool
  error : Option String := none
  deriving Repr, DecidableEq

/-- Session configuration (`DemoSessionOptions`), restricted to the fields
the embedded operations consult. -/
structure DemoSessionOptions where
  video : Bool := true
  trace : Bool := true
  screenshotOnStep : Bool := true
  outputDir : String := ""
  headless : Bool := false
  deriving Repr, DecidableEq

/-- The session's multi-tab registry state: the `Map<number, Page>` of live
viewports is modelled by the list of its keys in insertion order (JS `Map`
iteration order), the page handles themselves being external resources. -/
structure TabRegistry where
  pages : List Nat
  activePageId : Nat
  nextPageId : Nat
  deriving Repr, DecidableEq

/-- A recording session (`DemoSession`): identity, options, ordered step
log, optional video-timeline origin, and the viewport registry. -/
structure DemoSession where
  id : String := ""
  title : String
  startUrl : String := ""
  options : DemoSessionOptions := {}
  steps : List DemoStep
  videoStartTime : Option Nat := none
  tabs : TabRegistry := { pages := [0], activePageId := 0, nextPageId := 1 }
  deriving Repr, DecidableEq

/-! ## Session store (src/session/manager.ts) -/

/-- A step before its sequence id is assigned (`Omit<DemoStep, 'id'>`). -/
structure PartialStep where
  action : String
  description : String
  timestamp : Nat
  duration : Nat
  videoStartMs : Option Nat := none
  videoEndMs : Option Nat := none
  details : StepDetails := {}
  evidence : StepEvidence := {}
  success : Bool
  error : Option String := none
  deriving Repr, DecidableEq

/-- Completing a partial step with its sequence id (the TS spread
`{...step, id}`). -/
def PartialStep.withId (p : PartialStep) (id : Nat) : DemoStep :=
  { id := id, action := p.action, description := p.description,
    timestamp := p.timestamp, duration := p.duration,
    videoStartMs := p.videoStartMs, videoEndMs := p.videoEndMs,
    details := p.details, evidence := p.evidence,
    success := p.success, error := p.error }

/-- From manager.ts, `addStep`: assigns `id := steps.length + 1`, pushes the
completed step onto the log, and returns it. -/
def addStep (steps : List DemoStep) (p : PartialStep) : List DemoStep × DemoStep :=
  let fullStep := p.withId (steps.length + 1)
  (steps ++ [fullStep], fullStep)

/-! ## Evidence capture (src/collector/collector.ts) -/

/-- The action metadata passed to `executeWithEvidence`. -/
structure ExecuteOptions where
  action : String
  description : String
  details : StepDetails := {}
  deriving Repr, DecidableEq

/-- The screenshot path captured before the action when
`screenshotOnStep` is enabled: `<outputDir>/assets/step-NNN.png`
labelled with the next step number. -/
def screenshotPathFor (session : DemoSession) : Option String :=
  if session.options.screenshotOnStep then
    some (session.options.outputDir ++ "/assets/step-" ++
      pad3 (session.steps.length + 1) ++ ".png")
  else none

/-- From collector.ts, `executeWithEvidence`. The action callback is an
external effect; its outcome (`result` or thrown message) is the
`outcome` argument, and the ambient clock readings at entry and at the
`finally` block are `startTime` and `endTime`. In every case the
`finally` block appends exactly one step via `addStep`; a thrown
exception is then re-raised (`Except.error`), a success returns the
appended step with the callback result. -/
def executeWithEvidence {T : Type} (session : DemoSession)
    (startTime endTime : Nat) (opts : ExecuteOptions)
    (outcome : Except String T) :
    DemoSession × Except String (DemoStep × T) :=
  let duration := endTime - startTime
  let videoStartMs := session.videoStartTime.map (fun v => startTime - v)
  let videoEndMs := session.videoStartTime.map (fun v => endTime - v)
  let screenshotPath := screenshotPathFor session
  let success := match outcome with
    | .ok _ => true
    | .error _ => false
  let error : Option String := match outcome with
    | .ok _ => none
    | .error e => some e
  let (steps, recorded) := addStep session.steps
    { action := opts.action, description := opts.description,
      timestamp := startTime, duration := duration,
      videoStartMs := videoStartMs, videoEndMs := videoEndMs,
      details := opts.details,
      evidence := { screenshotPath := screenshotPath },
      success := success, error := error }
  let session' := { session with steps := steps }
  match outcome with
  | .ok r => (session', .ok (recorded, r))
  | .error e => (session', .error e)

/-! ## Viewport (tab) registry (src/session/manager.ts) -/

/-- From manager.ts, `newTab`: allocates `pageId := nextPageId++`, inserts the
new page at the end of the `Map` (insertion order), leaves the active
pointer alone, and returns the fresh id. Navigation is an external
effect. -/
def newTab (r : TabRegistry) : TabRegistry × Nat :=
  let pageId := r.nextPageId
  ({ r with pages := r.pages ++ [pageId], nextPageId := r.nextPageId + 1 },
   pageId)

/-- From manager.ts, `switchTab`: throws if `pageId` is not a live entry,
otherwise repoints the active pointer (the `bringToFront` call is an
external effect). -/
def switchTab (r : TabRegistry) (pageId : Nat) : TabRegistry × Except String Nat :=
  if pageId ∈ r.pages then
    ({ r with activePageId := pageId }, .ok pageId)
  else
    (r, .error ("Tab with id " ++ toString pageId ++ " not found"))

/-- From manager.ts, `closeTab`: throws `not found` for a dead id, throws
`Cannot close the last tab` when the registry holds a single live entry
(before any mutation), otherwise deletes the entry from the `Map`; if the
closed tab was active it switches to `remainingIds[0]`, the first
remaining key in insertion order. -/
def closeTab (r : TabRegistry) (pageId : Nat) : TabRegistry × Except String Unit :=
  if pageId ∈ r.pages then
    if r.pages.length == 1 then
      (r, .error "Cannot close the last tab")
    else
      let pages' := r.pages.erase pageId
      let r' := { r with pages := pages' }
      if r.activePageId == pageId then
        match pages'.head? with
        | some firstId => ((switchTab r' firstId).1, (switchTab r' firstId).2.map (fun _ => ()))
        | none => (r', .error "Tab with id undefined not found")
      else
        (r', .ok ())
  else
    (r, .error ("Tab with id " ++ toString pageId ++ " not found"))

/-- Registry states reachable from a freshly started session
(`startSession` initializes `pages = Map([[0, page]])`, `activePageId = 0`,
`nextPageId = 1`) through the three tab operations. -/
inductive TabRegistry.Reachable : TabRegistry → Prop
  | init : TabRegistry.Reachable { pages := [0], activePageId := 0, nextPageId := 1 }
  | openTab {r} : TabRegistry.Reachable r → TabRegistry.Reachable (newTab r).1
  | switch {r} (pageId : Nat) : TabRegistry.Reachable r →
      TabRegistry.Reachable (switchTab r pageId).1
  | close {r} (pageId : Nat) : TabRegistry.Reachable r →
      TabRegistry.Reachable (closeTab r pageId).1

/-! ## Narration derivation (src/generator/narration.ts) -/

/-- From narration.ts, `stepToNarration` (identical in both revisions of narration.ts):
a fixed lookup keyed on the action kind. `details.url` and
`details.value` are consulted with JS truthiness; the scroll phrasing
reads `details.direction` and falls back to `"down"` via `||`. -/
def stepToNarration (step : DemoStep) : String :=
  let description := step.description
  let details := step.details
  match step.action with
  | "navigate" =>
      if truthy details.url then
        "First, let" ++ apostr ++ "s navigate to the page. " ++ description
      else description
  | "click" =>
      "Now, " ++
        (if description.toLower.startsWith "click" then description
         else "click to " ++ description.toLower)
  | "fill" =>
      match details.value with
      | some v =>
          if v != "" then
            let maskedValue := if v.length > 20 then v.take 20 ++ "..." else v
            description ++ ". I" ++ apostr ++ "ll type \"" ++ maskedValue ++ "\"."
          else description
      | none => description
  | "select" =>
      match details.value with
      | some v =>
          if v != "" then
            description ++ ". I" ++ apostr ++ "ll select \"" ++ v ++ "\"."
          else description
  
      | none => description
  | "scroll" =>
      let dir := match details.direction with
        | some d => if d = "" then "down" else d
        | none => "down"
      "Let me scroll " ++ dir ++ " to show you more."
  | "wait" => "I" ++ apostr ++ "ll wait for the page to load."
  | "screenshot" => ""
  | _ => description

/-- The intro sentence common to both timing engines. -/
def introText (title : String) : String :=
  "Welcome! In this tutorial, I" ++ apostr ++ "ll show you how to " ++
    title.toLower ++ ". Let" ++ apostr ++ "s get started."

/-- The outro sentence common to both timing engines. -/
def outroText (title : String) : String :=
  "And that" ++ apostr ++ "s it! You" ++ apostr ++ "ve successfully completed " ++
    title.toLower ++ ". Thanks for watching!"

/-! ### Video-synchronized timing engine (narration.ts, current revision) -/

/-- A narration segment with timing for TTS (`NarrationSegment`). -/
structure NarrationSegment where
  stepId : Int
  startMs : Int
  endMs : Int
  durationMs : Int
  text : String
  deriving Repr, DecidableEq

/-- Full narration data for TTS generation (`NarrationData`). -/
structure NarrationData where
  title : String
  totalDurationMs : Int
  segments : List NarrationSegment
  deriving Repr, DecidableEq

/-- The step loop of `generateTimedNarration`: each step yielding
non-empty narration is appended with
`startMs = step.videoStartMs ?? previous segment endMs ?? 2000` and
`endMs = step.videoEndMs ?? startMs + step.duration`. -/
def narrationSegmentsLoop (steps : List DemoStep)
    (segments : List NarrationSegment) : List NarrationSegment :=
  match steps with
  | [] => segments
  | step :: rest =>
    let narration := stepToNarration step
    if narration = "" then
      narrationSegmentsLoop rest segments
    else
      let startMs : Int :=
        match step.videoStartMs with
        | some v => (v : Int)
        | none =>
          match segments.getLast? with
          | some prev => prev.endMs
          | none => 2000
      let endMs : Int :=
        match step.videoEndMs with
        | some v => (v : Int)
        | none => startMs + (step.duration : Int)
      narrationSegmentsLoop rest
        (segments ++ [{ stepId := (step.id : Int), startMs := startMs,
                        endMs := endMs, durationMs := endMs - startMs,
                        text := narration }])

/-- From the current narration.ts revision, `generateTimedNarration`: intro cue at
`[0, 2000]`, one segment per narrated step taken from the recorded video
offsets (falling back to back-to-back estimates), and an outro running
from the last segment end to the total duration, which is the final
step's `videoEndMs` or the summed step durations plus 5000 ms. -/
def generateTimedNarration (session : DemoSession) : NarrationData :=
  let totalDurationMs : Int :=
    match session.steps.getLast? with
    | some lastStep =>
      match lastStep.videoEndMs with
      | some v => (v : Int)
      | none => ((session.steps.foldl (fun sum s => sum + s.duration) 0 : Nat) : Int) + 5000
    | none => ((session.steps.foldl (fun sum s => sum + s.duration) 0 : Nat) : Int) + 5000
  let intro : NarrationSegment :=
    { stepId := 0, startMs := 0, endMs := 2000, durationMs := 2000,
      text := introText session.title }
  let segments := narrationSegmentsLoop session.steps [intro]
  let outroStart : Int :=
    match segments.getLast? with
    | some prev => prev.endMs
    | none => totalDurationMs - 3000
  let segments := segments ++
    [{ stepId := -1, startMs := outroStart, endMs := totalDurationMs,
       durationMs := totalDurationMs - outroStart,
       text := outroText session.title }]
  { title := session.title, totalDurationMs := totalDurationMs,
    segments := segments }

/-! ### Subtitle encoders (src/generator/subtitle.ts) -/

/-- The ordered list of cue time ranges emitted by `generateSrt` and
`generateVtt`: both `forEach` over `generateTimedNarration(session).segments`
in order and print one `start --> end` cue per segment (the two formats
differ only in the fractional-second separator and the `WEBVTT` header). -/
def subtitleCueRanges (session : DemoSession) : List (Int × Int) :=
  (generateTimedNarration session).segments.map (fun s => (s.startMs, s.endMs))

/-- The claimed cue discipline: consecutive cue ranges are non-decreasing
and non-overlapping — each cue starts no earlier than the previous cue
ends. -/
def cuesNonOverlapping (cues : List (Int × Int)) : Prop :=
  cues.Chain' (fun a b => a.2 ≤ b.1)

/-! ### Estimated-mode timing engine (collector-era narration.ts revision) -/

/-- One timed narration item of the estimated-mode engine
(`generateTimedNarration` in the earlier narration.ts revision): a
`{stepId, timestamp, duration, text}` record. -/
structure TimedNarrationItem where
  stepId : Int
  timestamp : Nat
  duration : Nat
  text : String
  deriving Repr, DecidableEq

/-- The step loop of the estimated-mode engine: a narrated step emits an
item at the current cumulative clock whose duration is
`Math.round(Math.max(2000, (wordCount / 150) * 60 * 1000))` — exactly
`max 2000 (wordCount * 60 * 1000 / 150)`, i.e. 400 ms per word, the
float round-trip being exact after `Math.round` — and then advances the
clock by `step.duration + 500`. Steps with empty narration advance
nothing. Returns the items together with the final cumulative clock. -/
def estimatedLoop (steps : List DemoStep) (cumulativeTime : Nat)
    (acc : List TimedNarrationItem) : List TimedNarrationItem × Nat :=
  match steps with
  | [] => (acc, cumulativeTime)
  | step :: rest =>
    let narration := stepToNarration step
    if narration = "" then
      estimatedLoop rest cumulativeTime acc
    else
      let wordCount := (jsSplitWs narration).length
      let estimatedDuration := max 2000 (wordCount * 60 * 1000 / 150)
      estimatedLoop rest (cumulativeTime + step.duration + 500)
        (acc ++ [{ stepId := (step.id : Int), timestamp := cumulativeTime,
                   duration := estimatedDuration, text := narration }])

/-- The estimated-mode revision of `generateTimedNarration`: a 3000 ms
intro at offset 0, the narrated steps laid out by `estimatedLoop`
starting from the 3000 ms mark, and a 4000 ms outro at the final
cumulative clock. -/
def generateTimedNarrationEstimated (session : DemoSession) :
    List TimedNarrationItem :=
  let intro : TimedNarrationItem :=
    { stepId := 0, timestamp := 0, duration := 3000,
      text := introText session.title }
  let (items, cumulativeTime) := estimatedLoop session.steps 3000 [intro]
  items ++
    [{ stepId := -1, timestamp := cumulativeTime, duration := 4000,
       text := outroText session.title }]

/-! ## Deliverable packager (src/generator/packager.ts) -/

/-- The aggregate summary block of the manifest. `successRate` is the JS
division `successCount / totalSteps`, modelled exactly in `ℚ`. -/
structure ManifestSummary where
  totalSteps : Nat
  duration : Nat
  successRate : ℚ
  deriving Repr, DecidableEq

/-- The deliverable manifest (`DemoDeliverables`), with the artifact
paths the packager records. -/
structure DemoDeliverables where
  sessionId : String
  title : String
  outputDir : String
  video : Option String
  trace : Option String
  guide : String
  steps : String
  narration : String
  subtitleSrt : String
  subtitleVtt : String
  tutorial : String
  gifPreview : Option String
  assets : List String
  summary : ManifestSummary
  deriving Repr, DecidableEq

/-- The outcome of each generate-and-write stage of
`packageDeliverables`, in source order. Generator invocations and file
writes are external effects; a `.error` is the message of the exception
the stage raised. The GIF stage resolves to an optional preview path. -/
structure GeneratorOutcomes where
  guide : Except String Unit
  stepsJson : Except String Unit
  narration : Except String Unit
  srt : Except String Unit
  vtt : Except String Unit
  html : Except String Unit
  gif : Except String (Option String)
  deriving Repr

/-- The all-stages-succeed outcome (with no GIF preview produced). -/
def GeneratorOutcomes.allOk : GeneratorOutcomes :=
  { guide := .ok (), stepsJson := .ok (), narration := .ok (),
    srt := .ok (), vtt := .ok (), html := .ok (), gif := .ok none }

/-- The manifest `summary` as `packageDeliverables` computes it:
`totalSteps` is the log length, `duration` the summed step durations,
and `successRate` is `successCount / totalSteps` when the log is
non-empty and `1` otherwise. -/
def packagerSummary (steps : List DemoStep) : ManifestSummary :=
  let successCount := (steps.filter (fun s => s.success)).length
  let totalDuration := steps.foldl (fun sum s => sum + s.duration) 0
  { totalSteps := steps.length, duration := totalDuration,
    successRate :=
      if steps.length > 0 then (successCount : ℚ) / (steps.length : ℚ) else 1 }

/-- From packager.ts, `packageDeliverables`. The seven generate-and-write
stages run in source order with no surrounding `try`: the first stage
that raises aborts the function and the exception propagates to the
caller. The first component of the result is the list of artifact paths
written before control left the function (the trace of completed
writes); the asset listing and the video/trace lookups are wrapped in
`try`/`catch` in the source and therefore never abort — their results
are the `assets`, `videoPath` and `tracePath` arguments. -/
def packageDeliverables (session : DemoSession) (g : GeneratorOutcomes)
    (assets : List String) (videoPath tracePath : Option String) :
    List String × Except String DemoDeliverables :=
  let outputDir := session.options.outputDir
  let guidePath := outputDir ++ "/guide.md"
  let stepsPath := outputDir ++ "/steps.json"
  let narrationPath := outputDir ++ "/narration.txt"
  let srtPath := outputDir ++ "/subtitles.srt"
  let vttPath := outputDir ++ "/subtitles.vtt"
  let htmlPath := outputDir ++ "/tutorial.html"
  match g.guide with
  | .error e => ([], .error e)
  | .ok _ =>
  match g.stepsJson with
  | .error e => ([guidePath], .error e)
  | .ok _ =>
  match g.narration with
  | .error e => ([guidePath, stepsPath], .error e)
  | .ok _ =>
  match g.srt with
  | .error e => ([guidePath, stepsPath, narrationPath], .error e)
  | .ok _ =>
  match g.vtt with
  | .error e => ([guidePath, stepsPath, narrationPath, srtPath], .error e)
  | .ok _ =>
  match g.html with
  | .error e => ([guidePath, stepsPath, narrationPath, srtPath, vttPath], .error e)
  | .ok _ =>
  match g.gif with
  | .error e =>
      ([guidePath, stepsPath, narrationPath, srtPath, vttPath, htmlPath], .error e)
  | .ok gifPreviewPath =>
      ([guidePath, stepsPath, narrationPath, srtPath, vttPath, htmlPath],
       .ok { sessionId := session.id, title := session.title,
             outputDir := outputDir,
             video := videoPath, trace := tracePath,
             guide := guidePath, steps := stepsPath,
             narration := narrationPath,
             subtitleSrt := srtPath, subtitleVtt := vttPath,
             tutorial := htmlPath, gifPreview := gifPreviewPath,
             assets := assets,
             summary := packagerSummary session.steps })

/-! ## The scroll tool (src/tools/scroll.ts) -/

/-- The validated input of the scroll tool (`scrollInputSchema`):
`direction` defaults to `"down"` and `amount` to 500 during validation,
so both are always present on the parsed input. -/
structure ScrollInput where
  ref : Option String := none
  direction : String := "down"
  amount : Int := 500
  description : String
  deriving Repr, DecidableEq

/-- The action metadata the scroll tool passes to `executeWithEvidence`:
`action: 'scroll'`, the caller's description, and a detail bag holding
only `ref` — the validated `direction` is not stored. -/
def scrollExecuteOptions (input : ScrollInput) : ExecuteOptions :=
  { action := "scroll", description := input.description,
    details := { ref := input.ref } }

/-! ## Statement-side definitions and concrete instances -/

/-- The estimated-mode layout as the spec words it, for comparison with
`estimatedLoop`: every narrated step contributes one item whose duration
is the word count converted at 150 words per minute (400 ms per word)
floored at 2000 ms, and whose start offset is the cumulative clock; the
clock then advances by the step's recorded action duration plus the
fixed 500 ms inter-step pause. -/
def specEstimatedLayout : List DemoStep → Nat → List TimedNarrationItem
  | [], _ => []
  | st :: rest, clock =>
    { stepId := (st.id : Int), timestamp := clock,
      duration := max 2000 (400 * (jsSplitWs (stepToNarration st)).length),
      text := stepToNarration st }
      :: specEstimatedLayout rest (clock + st.duration + 500)

/-- A session with an empty step log (used for the packager claims). -/
def sessionEmpty : DemoSession :=
  { title := "Demo", steps := [], options := { outputDir := "/out" } }

/-- A session whose only step is a wait action recorded 1000–1500 ms into
the video timeline — inside the fixed `[0, 2000]` intro cue. -/
def sessionEarlyStep : DemoSession :=
  { title := "Demo",
    steps := [{ id := 1, action := "wait", description := "Wait for load",
                timestamp := 1000, duration := 500,
                videoStartMs := some 1000, videoEndMs := some 1500,
                success := true }] }

/-- A session whose final (only) step narrates and carries a video end
offset of 3000 ms. -/
def sessionVideoEnd : DemoSession :=
  { title := "Demo",
    steps := [{ id := 1, action := "wait", description := "Wait for load",
                timestamp := 2500, duration := 500,
                videoStartMs := some 2500, videoEndMs := some 3000,
                success := true }] }

/-- A session with two narrated steps and no video-timeline offsets. -/
def sessionNoOffsets : DemoSession :=
  { title := "Demo",
    steps := [{ id := 1, action := "wait", description := "Wait for load",
                timestamp := 0, duration := 700, success := true },
              { id := 2, action := "scroll", description := "Scroll down",
                timestamp := 700, duration := 300, success := false,
                error := some "timeout" }] }

/-- A scroll tool call asking for upward scrolling. -/
def scrollUpInput : ScrollInput :=
  { direction := "up", description := "Scroll to the top" }

/-! ## Theorems -/

/-- Folding `addStep` over any batch of partial steps extends the log and
assigns the consecutive ids `len+1, len+2, ...`. -/
theorem foldl_addStep_map_id (ps : List PartialStep) (steps : List DemoStep) :
    (ps.foldl (fun s p => (addStep s p).1) steps).map (fun st => st.id)
      = steps.map (fun st => st.id) ++ List.range' (steps.length + 1) ps.length := by
  induction ps generalizing steps with
  | nil => simp
  | cons p ps ih =>
    simp only [List.foldl_cons]
    rw [ih]
    simp [addStep, PartialStep.withId, List.range'_succ, List.append_assoc]

/-- Folding `addStep` never disturbs the existing log prefix. -/
theorem foldl_addStep_keeps_log (ps : List PartialStep) (steps : List DemoStep) :
    steps <+: ps.foldl (fun s p => (addStep s p).1) steps := by
  induction ps generalizing steps with
  | nil => simp
  | cons p ps ih =>
    simp only [List.foldl_cons]
    exact List.IsPrefix.trans (by simp [addStep]) (ih _)

/-- C2: after any sequence of appends starting from the empty log the
step ids are exactly `1..N` in order; each `addStep` assigns
`len(log)+1` as the new id, appends exactly that completed step at the
end, and leaves every previously appended step unchanged. -/
theorem addStep_ids_contiguous (ps : List PartialStep)
    (steps : List DemoStep) (p : PartialStep) :
    ((ps.foldl (fun s q => (addStep s q).1) []).map (fun st => st.id)
        = List.range' 1 ps.length)
    ∧ (addStep steps p).2.id = steps.length + 1
    ∧ (addStep steps p).1 = steps ++ [(addStep steps p).2]
    ∧ steps <+: (ps.foldl (fun s q => (addStep s q).1) steps) := by
  refine ⟨?_, rfl, rfl, foldl_addStep_keeps_log ps steps⟩
  have h := foldl_addStep_map_id ps []
  simpa using h

/-- C1: `executeWithEvidence` appends exactly one step to the log in
both outcomes; the step records the measured duration and the captured
evidence; when the callback raises, that step has `success = false` and
the error message, and the exception is re-thrown; when the callback
succeeds, the step is returned with the result. -/
theorem executeWithEvidence_records {T : Type}
    (session : DemoSession) (startTime endTime : Nat)
    (opts : ExecuteOptions) (outcome : Except String T) :
    ∃ recorded : DemoStep,
      (executeWithEvidence session startTime endTime opts outcome).1.steps
          = session.steps ++ [recorded]
      ∧ recorded.id = session.steps.length + 1
      ∧ recorded.action = opts.action
      ∧ recorded.duration = endTime - startTime
      ∧ recorded.evidence.screenshotPath = screenshotPathFor session
      ∧ (∀ e : String, outcome = Except.error e →
            recorded.success = false ∧ recorded.error = some e
            ∧ (executeWithEvidence session startTime endTime opts outcome).2
                = Except.error e)
      ∧ (∀ v : T, outcome = Except.ok v →
            recorded.success = true ∧ recorded.error = none
            ∧ (executeWithEvidence session startTime endTime opts outcome).2
                = Except.ok (recorded, v)) := by
  cases outcome with
  | ok v =>
    refine ⟨_, rfl, rfl, rfl, rfl, rfl, ?_, ?_⟩
    · intro e he
      exact absurd he (by simp)
    · intro w hw
      obtain rfl : v = w := by simpa using hw
      exact ⟨rfl, rfl, rfl⟩
  | error e =>
    refine ⟨_, rfl, rfl, rfl, rfl, rfl, ?_, ?_⟩
    · intro f hf
      obtain rfl : e = f := by simpa using hf
      exact ⟨rfl, rfl, rfl⟩
    · intro w hw
      exact absurd hw (by simp)

/-- Witness for C1 at a concrete failing action: the log grows from 0 to
1 step and the exception message both lands in the step and propagates. -/
theorem executeWithEvidence_records_witness :
    (executeWithEvidence sessionEmpty 100 250
        { action := "click", description := "Click" }
        (Except.error "element not found" : Except String Unit)).1.steps.length = 1
    ∧ (executeWithEvidence sessionEmpty 100 250
        { action := "click", description := "Click" }
        (Except.error "element not found" : Except String Unit)).2
          = Except.error "element not found" := by
  obtain ⟨recorded, hsteps, -, -, -, -, herr, -⟩ :=
    executeWithEvidence_records (T := Unit) sessionEmpty 100 250
      { action := "click", description := "Click" }
      (Except.error "element not found")
  obtain ⟨-, -, hprop⟩ := herr "element not found" rfl
  refine ⟨?_, hprop⟩
  rw [hsteps]
  simp [sessionEmpty]

/-- C5: closing the sole remaining live viewport of a session always
throws `Cannot close the last tab` and performs no mutation: the
registry (live entries, active pointer, id counter) is returned exactly
as it was. -/
theorem closeTab_last_viewport (r : TabRegistry) (pageId : Nat)
    (h : r.pages = [pageId]) :
    closeTab r pageId = (r, Except.error "Cannot close the last tab") := by
  simp [closeTab, h]

/-- Witness for C5 on the freshly started registry. -/
theorem closeTab_last_viewport_witness :
    closeTab { pages := [0], activePageId := 0, nextPageId := 1 } 0
      = ({ pages := [0], activePageId := 0, nextPageId := 1 },
         Except.error "Cannot close the last tab") :=
  closeTab_last_viewport { pages := [0], activePageId := 0, nextPageId := 1 } 0 rfl

/-- Every reachable registry state keeps its live ids strictly increasing
in insertion order and below the allocation counter. -/
theorem reachable_pages_sorted {r : TabRegistry} (h : r.Reachable) :
    r.pages.Pairwise (· < ·) ∧ ∀ x ∈ r.pages, x < r.nextPageId := by
  induction h with
  | init => simp
  | openTab _ ih =>
    obtain ⟨hsort, hbound⟩ := ih
    dsimp only [newTab]
    constructor
    · rw [List.pairwise_append]
      exact ⟨hsort, by simp, by simpa using hbound⟩
    · intro x hx
      rcases List.mem_append.mp hx with hx | hx
      · exact Nat.lt_succ_of_lt (hbound x hx)
      · simp only [List.mem_singleton] at hx
        omega
  | switch pageId _ ih =>
    obtain ⟨hsort, hbound⟩ := ih
    rw [switchTab]
    split <;> exact ⟨hsort, hbound⟩
  | @close r pageId _ ih =>
    obtain ⟨hsort, hbound⟩ := ih
    have hsort' : (r.pages.erase pageId).Pairwise (· < ·) :=
      List.Pairwise.sublist (List.erase_sublist pageId r.pages) hsort
    have hbound' : ∀ x ∈ r.pages.erase pageId, x < r.nextPageId :=
      fun x hx => hbound x (List.mem_of_mem_erase hx)
    dsimp only [closeTab, switchTab]
    repeat' split
    all_goals first
      | exact ⟨hsort, hbound⟩
      | exact ⟨hsort', hbound'⟩

/-- C6: in any reachable registry, closing the active viewport while
another live viewport remains succeeds, removes exactly the closed
entry, and repoints the active pointer at the minimum of the remaining
live ids. -/
theorem closeTab_active_switches_to_min (r : TabRegistry) (pageId : Nat)
    (hr : r.Reachable) (hmem : pageId ∈ r.pages)
    (hlen : 1 < r.pages.length) (hactive : r.activePageId = pageId) :
    (closeTab r pageId).2 = Except.ok ()
    ∧ (closeTab r pageId).1.pages = r.pages.erase pageId
    ∧ (closeTab r pageId).1.activePageId ∈ r.pages.erase pageId
    ∧ ∀ x ∈ r.pages.erase pageId, (closeTab r pageId).1.activePageId ≤ x := by
  obtain ⟨hsort, -⟩ := reachable_pages_sorted hr
  have hsort' : (r.pages.erase pageId).Pairwise (· < ·) :=
    List.Pairwise.sublist (List.erase_sublist pageId r.pages) hsort
  obtain ⟨q, rest, hq⟩ : ∃ q rest, r.pages.erase pageId = q :: rest := by
    cases h : r.pages.erase pageId with
    | nil =>
      exfalso
      have := List.length_erase_of_mem hmem
      rw [h] at this
      simp at this
      omega
    | cons q rest => exact ⟨q, rest, rfl⟩
  have hne1 : (r.pages.length == 1) = false := by
    simp only [beq_eq_false_iff_ne, ne_eq]
    omega
  have hq_min : ∀ x ∈ r.pages.erase pageId, q ≤ x := by
    rw [hq] at hsort' ⊢
    intro x hx
    rcases List.mem_cons.mp hx with rfl | hx
    · exact le_refl x
    · exact le_of_lt ((List.pairwise_cons.mp hsort').1 x hx)
  have hcompute : closeTab r pageId
      = ({ r with pages := r.pages.erase pageId, activePageId := q },
         Except.ok ()) := by
    rw [closeTab]
    rw [if_pos hmem, hne1]
    simp only [Bool.false_eq_true, if_false]
    rw [hactive]
    simp only [beq_self_eq_true, if_true, hq, List.head?_cons]
    rw [switchTab]
    rw [if_pos (show q ∈ q :: rest from List.mem_cons_self q rest)]
    rfl
  rw [hcompute]
  exact ⟨rfl, rfl, by rw [hq]; exact List.mem_cons_self q rest, hq_min⟩

/-- Witness for C6: in the reachable registry `{[0, 1], active 0}`,
closing viewport 0 succeeds and makes 1 — the minimum remaining id —
active. -/
theorem closeTab_active_switches_to_min_witness :
    (closeTab { pages := [0, 1], activePageId := 0, nextPageId := 2 } 0).2
        = Except.ok ()
    ∧ (closeTab { pages := [0, 1], activePageId := 0, nextPageId := 2 } 0).1.activePageId
        ∈ [0, 1].erase 0
    ∧ (closeTab { pages := [0, 1], activePageId := 0, nextPageId := 2 } 0).1.activePageId ≤ 1 := by
  have hr : TabRegistry.Reachable { pages := [0, 1], activePageId := 0, nextPageId := 2 } :=
    TabRegistry.Reachable.openTab TabRegistry.Reachable.init
  have h := closeTab_active_switches_to_min
    { pages := [0, 1], activePageId := 0, nextPageId := 2 } 0 hr
    (by simp) (by simp) rfl
  exact ⟨h.1, h.2.2.1, h.2.2.2 1 (by simp)⟩

/-- When no step carries video-timeline offsets, the segment loop keeps
the cue chain intact: each appended segment starts exactly where the
previous one ends, so the result stays chained and non-empty. -/
theorem narrationSegmentsLoop_chain (steps : List DemoStep) :
    ∀ (acc : List NarrationSegment) (lastSeg : NarrationSegment),
      (∀ st ∈ steps, st.videoStartMs = none ∧ st.videoEndMs = none) →
      acc.getLast? = some lastSeg →
      acc.Chain' (fun a b => a.endMs ≤ b.startMs) →
      ∃ endSeg, (narrationSegmentsLoop steps acc).getLast? = some endSeg
        ∧ (narrationSegmentsLoop steps acc).Chain' (fun a b => a.endMs ≤ b.startMs) := by
  induction steps with
  | nil =>
    intro acc lastSeg _ hlast hchain
    exact ⟨lastSeg, by simpa [narrationSegmentsLoop] using hlast,
      by simpa [narrationSegmentsLoop] using hchain⟩
  | cons st rest ih =>
    intro acc lastSeg hnone hlast hchain
    have hst := hnone st (List.mem_cons_self st rest)
    have hrest : ∀ s ∈ rest, s.videoStartMs = none ∧ s.videoEndMs = none :=
      fun s hs => hnone s (List.mem_cons_of_mem st hs)
    by_cases hn : stepToNarration st = ""
    · simp only [narrationSegmentsLoop]
      rw [if_pos hn]
      exact ih acc lastSeg hrest hlast hchain
    · simp only [narrationSegmentsLoop]
      rw [if_neg hn, hst.1, hst.2, hlast]
      refine ih _ _ hrest (List.getLast?_concat _) ?_
      rw [List.chain'_append]
      refine ⟨hchain, List.chain'_singleton _, ?_⟩
      intro x hx y hy
      rw [hlast] at hx
      simp only [Option.mem_def, Option.some.injEq] at hx
      simp only [List.head?_cons, Option.mem_def, Option.some.injEq] at hy
      subst hx
      subst hy
      exact le_refl _

/-- C3 (as stated) is false: a counterexample session whose only step was
recorded 1000–1500 ms into the video timeline yields the cue ranges
`[0, 2000], [1000, 1500], [1500, 1500]` — the second cue starts before
the first one ends, so the SRT/VTT cues overlap. -/
theorem subtitle_cues_overlap_counterexample :
    ¬ cuesNonOverlapping (subtitleCueRanges sessionEarlyStep) := by
  have h : subtitleCueRanges sessionEarlyStep
      = [(0, 2000), (1000, 1500), (1500, 1500)] := by rfl
  rw [cuesNonOverlapping, h]
  intro hc
  have h01 := (List.chain'_cons.mp hc).1
  norm_num at h01

/-- C3 amended: for sessions none of whose steps carry video-timeline
offsets (the estimated fallback layout), the SRT/VTT cue ranges are
non-decreasing and non-overlapping: every cue starts no earlier than the
previous cue ends. -/
theorem subtitle_cues_nonoverlapping_no_offsets (session : DemoSession)
    (h : ∀ st ∈ session.steps, st.videoStartMs = none ∧ st.videoEndMs = none) :
    cuesNonOverlapping (subtitleCueRanges session) := by
  obtain ⟨endSeg, hlast, hchain⟩ :=
    narrationSegmentsLoop_chain session.steps
      [{ stepId := 0, startMs := 0, endMs := 2000, durationMs := 2000,
         text := introText session.title }]
      { stepId := 0, startMs := 0, endMs := 2000, durationMs := 2000,
        text := introText session.title }
      h rfl (List.chain'_singleton _)
  rw [cuesNonOverlapping, subtitleCueRanges, List.chain'_map]
  simp only [generateTimedNarration]
  rw [List.chain'_append]
  refine ⟨hchain, List.chain'_singleton _, ?_⟩
  intro x hx y hy
  rw [hlast] at hx
  simp only [Option.mem_def, Option.some.injEq] at hx
  simp only [List.head?_cons, Option.mem_def, Option.some.injEq] at hy
  subst hx
  subst hy
  rw [hlast]

/-- Witness for the amended C3 on a concrete two-step session without
video offsets. -/
theorem subtitle_cues_nonoverlapping_no_offsets_witness :
    cuesNonOverlapping (subtitleCueRanges sessionNoOffsets) :=
  subtitle_cues_nonoverlapping_no_offsets sessionNoOffsets (by decide)

/-- If the final step of the list narrates and carries a video end
offset, the segment loop ends on that step's segment, whose `endMs` is
exactly the recorded offset. -/
theorem narrationSegmentsLoop_last_videoEnd (steps : List DemoStep) :
    ∀ (lastStep : DemoStep) (v : Nat),
      steps.getLast? = some lastStep →
      stepToNarration lastStep ≠ "" →
      lastStep.videoEndMs = some v →
      ∀ acc, ∃ endSeg,
        (narrationSegmentsLoop steps acc).getLast? = some endSeg
        ∧ endSeg.endMs = (v : Int)
        ∧ endSeg.stepId = (lastStep.id : Int) := by
  induction steps with
  | nil =>
    intro lastStep v hlast
    simp at hlast
  | cons st rest ih =>
    intro lastStep v hlast hnarr hv acc
    cases rest with
    | nil =>
      obtain rfl : st = lastStep := by simpa using hlast
      simp only [narrationSegmentsLoop]
      rw [if_neg hnarr, hv]
      exact ⟨_, List.getLast?_concat _, rfl, rfl⟩
    | cons r rs =>
      have hlast' : (r :: rs).getLast? = some lastStep := by
        rw [← hlast]
        simp [List.getLast?_cons_cons]
      simp only [narrationSegmentsLoop]
      by_cases hn : stepToNarration st = ""
      · rw [if_pos hn]
        exact ih lastStep v hlast' hnarr hv acc
      · rw [if_neg hn]
        exact ih lastStep v hlast' hnarr hv _

/-- C10: when the session's final step narrates and carries a video end
offset `v`, the video-synchronized timing engine reports `v` as the total
duration and emits a zero-width outro `[v, v]` with `durationMs = 0`. -/
theorem generateTimedNarration_zero_width_outro (session : DemoSession)
    (lastStep : DemoStep) (v : Nat)
    (hlast : session.steps.getLast? = some lastStep)
    (hnarr : stepToNarration lastStep ≠ "")
    (hv : lastStep.videoEndMs = some v) :
    (generateTimedNarration session).totalDurationMs = (v : Int)
    ∧ (generateTimedNarration session).segments.getLast?
        = some { stepId := -1, startMs := (v : Int), endMs := (v : Int),
                 durationMs := 0, text := outroText session.title } := by
  obtain ⟨endSeg, hloopLast, hend, -⟩ :=
    narrationSegmentsLoop_last_videoEnd session.steps lastStep v hlast hnarr hv
      [{ stepId := 0, startMs := 0, endMs := 2000, durationMs := 2000,
         text := introText session.title }]
  simp only [generateTimedNarration, hlast, hv, hloopLast, List.getLast?_concat]
  rw [hend]
  norm_num

/-- Witness for C10 at a concrete one-step session whose step ends 3000 ms
into the video timeline. -/
theorem generateTimedNarration_zero_width_outro_witness :
    (generateTimedNarration sessionVideoEnd).totalDurationMs = (3000 : Int)
    ∧ (generateTimedNarration sessionVideoEnd).segments.getLast?
        = some { stepId := -1, startMs := (3000 : Int), endMs := (3000 : Int),
                 durationMs := 0, text := outroText "Demo" } :=
  generateTimedNarration_zero_width_outro sessionVideoEnd
    { id := 1, action := "wait", description := "Wait for load",
      timestamp := 2500, duration := 500,
      videoStartMs := some 2500, videoEndMs := some 3000, success := true }
    3000 rfl (by decide) rfl

/-- The integer reading-rate arithmetic: `wc / 150` words per minute in
milliseconds is exactly 400 ms per word. -/
theorem wordRate (wc : Nat) : wc * 60 * 1000 / 150 = 400 * wc := by
  rw [show wc * 60 * 1000 = 400 * wc * 150 by ring]
  exact Nat.mul_div_cancel (400 * wc) (by norm_num)

/-- The loop `estimatedLoop` computes exactly the spec-side cumulative layout over
the narrated steps, and its final clock is the start clock plus the
summed `duration + 500` of the narrated steps. -/
theorem estimatedLoop_spec (steps : List DemoStep) :
    ∀ (cum : Nat) (acc : List TimedNarrationItem),
      estimatedLoop steps cum acc
        = (acc ++ specEstimatedLayout
              (steps.filter fun st => stepToNarration st != "") cum,
           cum + ((steps.filter fun st => stepToNarration st != "").map
              (fun st => st.duration + 500)).sum) := by
  induction steps with
  | nil =>
    intro cum acc
    simp [estimatedLoop, specEstimatedLayout]
  | cons st rest ih =>
    intro cum acc
    by_cases h : stepToNarration st = ""
    · simp only [estimatedLoop]
      rw [if_pos h, ih]
      have hp : (stepToNarration st != "") = false := by simp [h]
      simp [List.filter_cons, hp]
    · simp only [estimatedLoop]
      rw [if_neg h, ih]
      have hp : (stepToNarration st != "") = true := by simp [h]
      simp only [List.filter_cons, hp, if_true, specEstimatedLayout,
        List.map_cons, List.sum_cons]
      rw [wordRate]
      refine Prod.ext ?_ ?_
      · simp [List.append_assoc]
      · simp
        omega

/-- C7: in estimated mode the timed narration is the 3000 ms intro
followed by one item per narrated step — each with duration
`max 2000 (400 ms × word count)`, i.e. the word count converted at 150
words per minute floored at 2000 ms — laid out cumulatively from the
intro clock of 3000 ms by advancing, per narrated step, the step's
recorded duration plus the fixed 500 ms pause, and closed by the 4000 ms
outro at the final clock. -/
theorem estimated_narration_layout (session : DemoSession) :
    generateTimedNarrationEstimated session
      = { stepId := 0, timestamp := 0, duration := 3000,
          text := introText session.title }
        :: (specEstimatedLayout
              (session.steps.filter fun st => stepToNarration st != "") 3000
            ++ [{ stepId := -1,
                  timestamp := 3000 + ((session.steps.filter
                      fun st => stepToNarration st != "").map
                      (fun st => st.duration + 500)).sum,
                  duration := 4000, text := outroText session.title }]) := by
  simp only [generateTimedNarrationEstimated]
  rw [estimatedLoop_spec]
  simp

/-- C4 (as stated) is false: with every stage succeeding except the very
first (the guide write), packaging aborts immediately — nothing is
written, no Manifest is produced, and in particular the subtitle
artifact of the perfectly healthy SRT generator is absent. -/
theorem packageDeliverables_abort_counterexample :
    packageDeliverables sessionEmpty
        { GeneratorOutcomes.allOk with guide := Except.error "disk full" }
        [] none none
      = ([], Except.error "disk full")
    ∧ "/out/subtitles.srt" ∉
        (packageDeliverables sessionEmpty
          { GeneratorOutcomes.allOk with guide := Except.error "disk full" }
          [] none none).1 := by
  refine ⟨rfl, ?_⟩
  rw [show (packageDeliverables sessionEmpty
      { GeneratorOutcomes.allOk with guide := Except.error "disk full" }
      [] none none).1 = [] from rfl]
  exact List.not_mem_nil _

/-- C4 amended: the packaging stages run strictly in source order with no
isolation. A Manifest is produced exactly when all seven generate-and-
write stages succeed; the first failing stage aborts the whole
packaging, its exception propagates to the caller, only the artifacts of
the stages before it are written, and no Manifest is returned. -/
theorem packageDeliverables_fail_fast (session : DemoSession)
    (g : GeneratorOutcomes) (assets : List String)
    (videoPath tracePath : Option String) (e : String) :
    ((packageDeliverables session g assets videoPath tracePath).2.isOk
      = (g.guide.isOk && g.stepsJson.isOk && g.narration.isOk && g.srt.isOk
          && g.vtt.isOk && g.html.isOk && g.gif.isOk))
    ∧ (g.guide = Except.error e →
        packageDeliverables session g assets videoPath tracePath
          = ([], Except.error e))
    ∧ (g.guide = Except.ok () → g.stepsJson = Except.error e →
        packageDeliverables session g assets videoPath tracePath
          = ([session.options.outputDir ++ "/guide.md"], Except.error e))
    ∧ (g.guide = Except.ok () → g.stepsJson = Except.ok () →
        g.narration = Except.error e →
        packageDeliverables session g assets videoPath tracePath
          = ([session.options.outputDir ++ "/guide.md",
              session.options.outputDir ++ "/steps.json"], Except.error e))
    ∧ (g.guide = Except.ok () → g.stepsJson = Except.ok () →
        g.narration = Except.ok () → g.srt = Except.error e →
        packageDeliverables session g assets videoPath tracePath
          = ([session.options.outputDir ++ "/guide.md",
              session.options.outputDir ++ "/steps.json",
              session.options.outputDir ++ "/narration.txt"], Except.error e))
    ∧ (g.guide = Except.ok () → g.stepsJson = Except.ok () →
        g.narration = Except.ok () → g.srt = Except.ok () →
        g.vtt = Except.error e →
        packageDeliverables session g assets videoPath tracePath
          = ([session.options.outputDir ++ "/guide.md",
              session.options.outputDir ++ "/steps.json",
              session.options.outputDir ++ "/narration.txt",
              session.options.outputDir ++ "/subtitles.srt"], Except.error e))
    ∧ (g.guide = Except.ok () → g.stepsJson = Except.ok () →
        g.narration = Except.ok () → g.srt = Except.ok () →
        g.vtt = Except.ok () → g.html = Except.error e →
        packageDeliverables session g assets videoPath tracePath
          = ([session.options.outputDir ++ "/guide.md",
              session.options.outputDir ++ "/steps.json",
              session.options.outputDir ++ "/narration.txt",
              session.options.outputDir ++ "/subtitles.srt",
              session.options.outputDir ++ "/subtitles.vtt"], Except.error e))
    ∧ (g.guide = Except.ok () → g.stepsJson = Except.ok () →
        g.narration = Except.ok () → g.srt = Except.ok () →
        g.vtt = Except.ok () → g.html = Except.ok () →
        g.gif = Except.error e →
        packageDeliverables session g assets videoPath tracePath
          = ([session.options.outputDir ++ "/guide.md",
              session.options.outputDir ++ "/steps.json",
              session.options.outputDir ++ "/narration.txt",
              session.options.outputDir ++ "/subtitles.srt",
              session.options.outputDir ++ "/subtitles.vtt",
              session.options.outputDir ++ "/tutorial.html"], Except.error e)) := by
  obtain ⟨g1, g2, g3, g4, g5, g6, g7⟩ := g
  refine ⟨?_, ?_, ?_, ?_, ?_, ?_, ?_, ?_⟩
  · cases g1 <;> cases g2 <;> cases g3 <;> cases g4 <;> cases g5 <;>
      cases g6 <;> cases g7 <;> rfl
  · intro h1
    subst h1
    rfl
  · intro h1 h2
    subst h1
    subst h2
    rfl
  · intro h1 h2 h3
    subst h1
    subst h2
    subst h3
    rfl
  · intro h1 h2 h3 h4
    subst h1
    subst h2
    subst h3
    subst h4
    rfl
  · intro h1 h2 h3 h4 h5
    subst h1
    subst h2
    subst h3
    subst h4
    subst h5
    rfl
  · intro h1 h2 h3 h4 h5 h6
    subst h1
    subst h2
    subst h3
    subst h4
    subst h5
    subst h6
    rfl
  · intro h1 h2 h3 h4 h5 h6 h7
    subst h1
    subst h2
    subst h3
    subst h4
    subst h5
    subst h6
    subst h7
    rfl

/-- Witness for the amended C4: with only the JSON-log stage failing, the
guide was written, the failure propagated, and nothing after it ran. -/
theorem packageDeliverables_fail_fast_witness :
    packageDeliverables sessionEmpty
        { GeneratorOutcomes.allOk with stepsJson := Except.error "EACCES" }
        [] none none
      = (["/out/guide.md"], Except.error "EACCES") := by
  have h := (packageDeliverables_fail_fast sessionEmpty
    { GeneratorOutcomes.allOk with stepsJson := Except.error "EACCES" }
    [] none none "EACCES").2.2.1 rfl rfl
  simpa [sessionEmpty] using h

/-- C9: packaging a session with an empty step log (all stages
succeeding) returns a Manifest whose summary reports zero steps, zero
total duration, and a success rate of 1. -/
theorem packageDeliverables_empty_log_summary (session : DemoSession)
    (assets : List String) (videoPath tracePath : Option String)
    (h : session.steps = []) :
    (packageDeliverables session GeneratorOutcomes.allOk assets
        videoPath tracePath).2.map DemoDeliverables.summary
      = Except.ok { totalSteps := 0, duration := 0, successRate := 1 } := by
  simp [packageDeliverables, GeneratorOutcomes.allOk, packagerSummary, h,
    Except.map]

/-- Witness for C9 on the concrete empty session. -/
theorem packageDeliverables_empty_log_summary_witness :
    (packageDeliverables sessionEmpty GeneratorOutcomes.allOk []
        none none).2.map DemoDeliverables.summary
      = Except.ok { totalSteps := 0, duration := 0, successRate := 1 } :=
  packageDeliverables_empty_log_summary sessionEmpty [] none none rfl

/-- C8: the failing input. The scroll tool invoked with `direction: "up"`
passes a detail bag without the direction (`details: { ref }`), so the
step recorded by `executeWithEvidence` narrates with the `"down"`
fallback of `stepToNarration` — not with `"up"` phrasing — contradicting
the direction-aware scroll narration both `types.ts` (which declares
`details.direction`) and narration.ts (which dereferences it) intend. -/
theorem scroll_narration_ignores_direction (session : DemoSession)
    (startTime endTime : Nat) :
    scrollUpInput.direction = "up"
    ∧ (scrollExecuteOptions scrollUpInput).details.direction = none
    ∧ ((executeWithEvidence session startTime endTime
          (scrollExecuteOptions scrollUpInput)
          (Except.ok () : Except String Unit)).1.steps.getLast?).map stepToNarration
        = some "Let me scroll down to show you more." := by
  refine ⟨rfl, rfl, ?_⟩
  dsimp only [executeWithEvidence, addStep, scrollExecuteOptions,
    scrollUpInput, PartialStep.withId]
  rw [List.getLast?_concat]
  rfl
